import Mathlib

/-!
Verification of the bent build-and-run execution core.

The Go source (package main, `compileOne`, `runBinary`,
`runOtherBenchmarks`, `createFilesForLater` and associated data) is
shallowly embedded below.  External effects — the result of running the
compiler, the success of reopening the build-log file, the chunks
delivered by each output stream — are supplied to each embedded function
as explicit "effects" records, and the functions return the state updates
and file writes the Go code would perform.  Machine integers (Go int /
int64 nanosecond durations) are modelled as `Int`; none of the modelled
arithmetic can overflow in the source's domain.
-/

/-- One build-timing observation: benchmark name plus wall-clock, user-CPU
and system-CPU durations in nanoseconds (Go `time.Duration` = int64 ns). -/
structure BenchStat where
  name : String
  realTime : Int
  userTime : Int
  sysTime : Int
deriving DecidableEq

/-- A named unit of work to build and run (Go struct `Benchmark`; fields
not used by the embedded core are omitted). -/
structure Benchmark where
  name : String
  repo : String
  buildDir : String
  buildFlags : List String
  gcEnv : List String
  notSandboxed : Bool
  disabled : Bool
deriving DecidableEq

/-- A named build/run profile (Go struct `Configuration`). -/
structure Configuration where
  name : String
  root : String
  buildFlags : List String
  afterBuild : List String
  gcFlags : String
  gcEnv : List String
  runFlags : List String
  runEnv : List String
  runWrapper : List String
  disabled : Bool
  buildStats : List BenchStat
  rootCopy : String
deriving DecidableEq

/-- Process-global data of the Go program: the flag variables
`explicitAll` and `verbose`, the `runstamp`, the default environment, the
host `runtime.GOOS` / `runtime.GOARCH`, and the resolved directories
(`dirs.wd`, `dirs.testBinDir`, `dirs.benchDir`). -/
structure Globals where
  explicitAll : Int
  verbose : Int
  runstamp : String
  defaultEnv : List String
  goos : String
  goarch : String
  wd : String
  testBinDir : String
  benchDir : String
deriving DecidableEq

/-- Character test used to split a `key=value` environment entry: true on
every character other than the equals sign. -/
def isNotEqSign (c : Char) : Bool := decide (c ≠ '=')

/-- Key of a `key=value` environment entry: the characters before the
first equals sign. -/
def keyOf (e : String) : String := String.mk (e.data.takeWhile isNotEqSign)

/-- Value of a `key=value` environment entry: the characters after the
first equals sign (empty when there is none). -/
def valOf (e : String) : String :=
  match e.data.dropWhile isNotEqSign with
  | [] => ""
  | _ :: rest => String.mk rest

/-- Modelled from the spec: `getenv` (an environment-variable construction
helper whose definition is outside the given core source) returns the
value bound to a key in a `key=value` environment list, or the empty
string when the key is absent. -/
def getenv (env : List String) (ev : String) : String :=
  match env.find? (fun e => keyOf e == ev) with
  | some e => valOf e
  | none => ""

/-- Modelled from the spec: `replaceEnv` (an environment-variable
construction helper whose definition is outside the given core source)
binds a key to a value in a `key=value` environment list, replacing any
existing binding of that key so that a later layer wins on key collision,
and appending the binding when the key is absent. -/
def replaceEnv (env : List String) (ev v : String) : List String :=
  if env.any (fun e => keyOf e == ev) then
    env.map (fun e => if keyOf e == ev then ev ++ "=" ++ v else e)
  else
    env ++ [ev ++ "=" ++ v]

/-- Modelled from the spec: `replaceEnvs` applies `replaceEnv` for each
`key=value` entry of the override list in order, so later overrides win. -/
def replaceEnvs (env : List String) (ev : List String) : List String :=
  ev.foldl (fun acc e => replaceEnv acc (keyOf e) (valOf e)) env

/-- Go `path.Join` restricted to already-clean components: empty
components are dropped and the rest are joined with a slash (the
`path.Clean` normalisation pass is the identity on the clean paths the
core passes in). -/
def pathJoin (a b : String) : String :=
  if a = "" then b else if b = "" then a else a ++ "/" ++ b

/-- Three-component `path.Join`. -/
def pathJoin3 (a b c : String) : String := pathJoin (pathJoin a b) c

/-- Go `path.Base`: the last element of a slash-separated path, after
stripping trailing slashes; "." for the empty path, "/" for all-slash
paths. -/
def goPathBase (p : String) : String :=
  if p = "" then "." else
    let stripped := p.data.reverse.dropWhile (fun c => c == '/')
    let base := stripped.takeWhile (fun c => !(c == '/'))
    if base = [] then "/" else String.mk base.reverse

/-- Go `strings.Title` separator test (ASCII part of `isSeparator`):
digits, letters and underscore do not separate words, everything else
does.  Non-ASCII letters and digits likewise do not separate; other
non-ASCII characters separate exactly when they are whitespace. -/
def goIsSeparator (c : Char) : Bool :=
  if c.val ≤ 127 then
    !(c.isDigit || c.isAlpha || c == '_')
  else if c.isAlpha || c.isDigit then false
  else c.isWhitespace

/-- Go `strings.Title`: upper-case every letter that begins a word, where
word boundaries are given by `goIsSeparator` and the notional character
before the string is a space. -/
def goTitle (s : String) : String :=
  String.mk
    ((s.data.foldl
        (fun (acc : List Char × Char) c =>
          ((if goIsSeparator acc.2 then c.toUpper else c) :: acc.1, c))
        ([], ' ')).1.reverse)

/-- The per-build summary record `compileOne` appends to the build log
(Go format string
`Benchmark%s 1 %d build-real-ns/op %d build-user-ns/op %d build-sys-ns/op\n`). -/
def summaryLine (name : String) (realNs userNs sysNs : Int) : String :=
  "Benchmark" ++ goTitle name ++ " 1 " ++ toString realNs ++
    " build-real-ns/op " ++ toString userNs ++ " build-user-ns/op " ++
    toString sysNs ++ " build-sys-ns/op\n"

/-- Go `Configuration.benchName`: the test-binary name
`<benchmark>_<configuration>`. -/
def benchName (c : Configuration) (b : Benchmark) : String :=
  b.name ++ "_" ++ c.name

/-- Go `Configuration.goCommandCopy`: the toolchain binary, preferring the
configuration's private toolchain copy. -/
def goCommandCopy (c : Configuration) : String :=
  if c.rootCopy ≠ "" then pathJoin3 c.rootCopy "bin" "go" else "go"

/-- Go `Configuration.thingBenchName`: the per-configuration log-file path
for one benchmark kind (`build` or an after-build command). -/
def thingBenchName (g : Globals) (c : Configuration) (suffix : String) : String :=
  pathJoin g.benchDir
    (g.runstamp ++ "." ++ c.name ++ "." ++
      (if suffix.length ≠ 0 then goPathBase suffix else suffix))

/-- Go `Configuration.buildBenchName`: the build-log file path. -/
def buildBenchName (g : Globals) (c : Configuration) : String :=
  thingBenchName g c "build"

/-- Outcome classification of a finished Go `exec.Cmd`: `exit` is an
`*exec.ExitError` (carrying its `Stderr` bytes), `other` is any other
error (rendered through `%v`). -/
inductive GoCmdErr where
  | exit (stderr : String)
  | other (msg : String)
deriving DecidableEq

/-- The compiler-argument vector `compileOne` builds (source lines
175-188), written as the same sequence of appends the Go code performs:
`exec.Command` seeds the vector with the command path and
`test -vet=off -c`, then `-o <wd>/<testBinDir>/<bench>_<config>`, the
benchmark build flags, `-a` when `explicitAll == 1`, the configuration
build flags, `-gcflags=<GcFlags>` when non-empty, and finally the
benchmark's module path. -/
def compileArgs (g : Globals) (config : Configuration) (bench : Benchmark) : List String :=
  let gocmd := goCommandCopy config
  let compileTo := pathJoin3 g.wd g.testBinDir (benchName config bench)
  let args := [gocmd, "test", "-vet=off", "-c"]
  let args := args ++ ["-o", compileTo]
  let args := args ++ bench.buildFlags
  let args := if g.explicitAll = 1 then args ++ ["-a"] else args
  let args := args ++ config.buildFlags
  let args := if config.gcFlags ≠ "" then args ++ ["-gcflags=" ++ config.gcFlags] else args
  args ++ [bench.repo]

/-- The claimed compiler-argument vector, following the claim's words:
benchmark build flags, then configuration build flags, then `-a` only
when force-rebuild is active, then `-gcflags=<GcFlags>` only when
non-empty, then the module path. -/
def compileArgsClaimed (g : Globals) (config : Configuration) (bench : Benchmark) : List String :=
  [goCommandCopy config, "test", "-vet=off", "-c", "-o",
      pathJoin3 g.wd g.testBinDir (benchName config bench)] ++
    bench.buildFlags ++ config.buildFlags ++
    (if g.explicitAll = 1 then ["-a"] else []) ++
    (if config.gcFlags ≠ "" then ["-gcflags=" ++ config.gcFlags] else []) ++
    [bench.repo]

/-- The environment `compileOne` hands to the compiler (source lines
190-198): the default process environment, then GOOS forced to linux
unless the benchmark is not sandboxed, then GOROOT set to the
configuration's private root copy when non-empty, then the benchmark's
GcEnv overrides, then the configuration's GcEnv overrides. -/
def compileEnv (g : Globals) (config : Configuration) (bench : Benchmark) : List String :=
  let env := g.defaultEnv
  let env := if !bench.notSandboxed then replaceEnv env ("GOOS") ("linux") else env
  let env := if config.rootCopy ≠ "" then replaceEnv env ("GOROOT") config.rootCopy else env
  let env := replaceEnvs env bench.gcEnv
  replaceEnvs env config.gcEnv

/-- The claimed environment computation, following the claim's words:
default process environment; GOOS replaced by linux unless NotSandboxed;
GOROOT replaced by the private root copy when non-empty; benchmark GcEnv
overrides; configuration GcEnv overrides. -/
def compileEnvClaimed (g : Globals) (config : Configuration) (bench : Benchmark) : List String :=
  replaceEnvs
    (replaceEnvs
      ((fun e => if config.rootCopy ≠ "" then replaceEnv e ("GOROOT") config.rootCopy else e)
        ((fun e => if !bench.notSandboxed then replaceEnv e ("GOOS") ("linux") else e)
          g.defaultEnv))
      bench.gcEnv)
    config.gcEnv

/-- Outcome of one drained-command invocation for an after-build
measurement command: whether its log reopened, whether running it failed,
and its combined output. -/
structure AfterCmdEffect where
  openOk : Bool
  runErr : Bool
  output : String
deriving DecidableEq

/-- Go `Configuration.runOtherBenchmarks`: run each after-build command
and append its combined output to that command's per-configuration log
file.  Returns the (file, bytes) writes performed.  A failed log reopen,
a disabled benchmark, or a failed command run each skip that command's
write and continue with the next; nothing here disables anything or
terminates the process.  (The command-path resolution and environment
construction affect only the spawned process and are not observable in
the returned writes.) -/
def runOtherBenchmarks (g : Globals) (config : Configuration) (b : Benchmark)
    (effs : List AfterCmdEffect) : List (String × String) :=
  if config.disabled then []
  else
    (config.afterBuild.zip effs).filterMap (fun p =>
      if !p.2.openOk then none
      else if b.disabled then none
      else if p.2.runErr then none
      else some (thingBenchName g config p.1, p.2.output))

/-- External effects of one `compileOne` invocation: the diagnostic of the
cache-clear run, the compiler's combined output, error and timings, the
success of reopening the build log for append, and the after-build
command outcomes. -/
structure CompileEffects where
  cleanMsg : String
  output : String
  err : Option GoCmdErr
  realNs : Int
  userNs : Int
  sysNs : Int
  openOk : Bool
  afterCmds : List AfterCmdEffect
deriving DecidableEq

/-- Observable outcome of one `compileOne` invocation: the updated
configuration and benchmark, the returned string (`none` when the process
terminated instead of returning), the writes appended to the build log,
the `os.Exit` status when taken, whether the post-build measurement step
ran, its writes, and the compiler command's argument vector and
environment. -/
structure CompileResult where
  config : Configuration
  bench : Benchmark
  ret : Option String
  logWrites : List String
  exited : Option Nat
  ranOther : Bool
  otherWrites : List (String × String)
  cmdArgs : List String
  cmdEnv : List String
  cleanRan : Bool
deriving DecidableEq

/-- Go `Configuration.compileOne` (source lines 152-274): clear the build
cache unless `-a=1`, run the compiler, and on failure disable the
benchmark and return a diagnostic; on success record a `BenchStat`,
append the summary record (preceded by a `goarch:` marker when the
configuration's GcEnv targets a different architecture) to the build
log — terminating the process with status 2 when the log cannot be
reopened — and run the post-build measurement step when `count == 0`. -/
def compileOne (g : Globals) (config : Configuration) (bench : Benchmark)
    (count : Int) (eff : CompileEffects) : CompileResult :=
  let cleanRan := g.explicitAll ≠ 1
  let args := compileArgs g config bench
  let env := compileEnv g config bench
  match eff.err with
  | some e =>
    let s :=
      match e with
      | GoCmdErr.exit _ =>
        "There was an error running 'go test', output = " ++ eff.output
      | GoCmdErr.other m =>
        "There was an error running 'go test', output = " ++ eff.output ++
          ", error = " ++ m
    { config := config
      bench := { bench with disabled := true }
      ret := some (s ++ "(" ++ bench.name ++ ")\n")
      logWrites := []
      exited := none
      ranOther := false
      otherWrites := []
      cmdArgs := args
      cmdEnv := env
      cleanRan := cleanRan }
  | none =>
    let bs : BenchStat :=
      { name := bench.name, realTime := eff.realNs
        userTime := eff.userNs, sysTime := eff.sysNs }
    let config' := { config with buildStats := config.buildStats ++ [bs] }
    let configGoArch := getenv config.gcEnv ("GOARCH")
    let buf :=
      (if configGoArch ≠ g.goarch ∧ configGoArch ≠ "" then
        "goarch: " ++ g.goarch ++ "-" ++ configGoArch ++ "\n"
      else "") ++
        summaryLine bench.name bs.realTime bs.userTime bs.sysTime
    if eff.openOk then
      { config := config'
        bench := bench
        ret := some ""
        logWrites := [buf]
        exited := none
        ranOther := count == 0
        otherWrites :=
          if count = 0 then runOtherBenchmarks g config' bench eff.afterCmds else []
        cmdArgs := args
        cmdEnv := env
        cleanRan := cleanRan }
    else
      { config := config'
        bench := bench
        ret := none
        logWrites := []
        exited := some 2
        ranOther := false
        otherWrites := []
        cmdArgs := args
        cmdEnv := env
        cleanRan := cleanRan }

/-- Result of one `bufio.Reader.ReadBytes` call as seen by the drainer:
delimiter found with no error (`ok`), end of stream (`eof`), or a read
failure carrying a message (`fail`).  `ReadBytes` returns the bytes read
before the error together with the error itself. -/
inductive ReadRes where
  | ok
  | eof
  | fail (msg : String)
deriving DecidableEq

/-- The drainer loop of `runBinary` (source lines 316-339), applied to the
successive `ReadBytes` results of one stream.  Returns the chunks written
to the log sink (each non-empty chunk is written, synced and echoed under
the shared lock) and the error sent on the completion channel (`none`
when the loop breaks on end-of-stream or an empty chunk).  An exhausted
result list behaves like an empty end-of-stream read. -/
def drain (reads : List (String × ReadRes)) : List String × Option String :=
  match reads with
  | [] => ([], none)
  | (bs, res) :: rest =>
    let writes := if bs.length > 0 then [bs] else []
    if res = ReadRes.eof ∨ bs.length = 0 then (writes, none)
    else
      match res with
      | ReadRes.fail m => (writes, some m)
      | _ =>
        let r := drain rest
        (writes ++ r.1, r.2)

/-- External effects of one `runBinary` invocation: possible failures
attaching either pipe or starting the process, the `ReadBytes` results of
each stream, the error from `cmd.Wait`, and the process exit code. -/
structure RunEffects where
  stdoutPipeErr : Option String
  stderrPipeErr : Option String
  startErr : Option String
  stdoutReads : List (String × ReadRes)
  stderrReads : List (String × ReadRes)
  waitErr : Option GoCmdErr
  exitCode : Int
deriving DecidableEq

/-- The blocking points `runBinary` passes through after a successful
start, in the order the source joins them. -/
inductive RunEvent where
  | drainStdoutDone
  | drainStderrDone
  | processWaited
deriving DecidableEq

/-- Observable outcome of one `runBinary` invocation: the returned
diagnostic (empty on success) and exit code, the join events passed
through before returning, and the chunks each drainer wrote to the log
sink. -/
structure RunResult where
  msg : String
  rc : Int
  events : List RunEvent
  stdoutWrites : List String
  stderrWrites : List String
deriving DecidableEq

/-- Go `Configuration.runBinary` (source lines 289-369): attach both
pipes, start the process, drain both streams concurrently, receive the
stdout drainer's completion, then the stderr drainer's, then wait for the
process, and return a diagnostic string plus the exit code.  `rc` starts
at 0 and is only assigned from the process state after `cmd.Wait`, so
every early (pipe/start) failure returns 0. -/
def runBinary (line : String) (eff : RunEffects) : RunResult :=
  let rc : Int := 0
  match eff.stdoutPipeErr with
  | some e =>
    { msg := "Error [stdoutpipe] running '" ++ line ++ "', " ++ e
      rc := rc, events := [], stdoutWrites := [], stderrWrites := [] }
  | none =>
  match eff.stderrPipeErr with
  | some e =>
    { msg := "Error [stderrpipe] running '" ++ line ++ "', " ++ e
      rc := rc, events := [], stdoutWrites := [], stderrWrites := [] }
  | none =>
  match eff.startErr with
  | some e =>
    { msg := "Error [command start] running '" ++ line ++ "', " ++ e
      rc := rc, events := [], stdoutWrites := [], stderrWrites := [] }
  | none =>
    let dS := drain eff.stdoutReads
    let dE := drain eff.stderrReads
    let events := [RunEvent.drainStdoutDone, RunEvent.drainStderrDone,
      RunEvent.processWaited]
    let rc := eff.exitCode
    let base : RunResult :=
      { msg := "", rc := rc, events := events
        stdoutWrites := dS.1, stderrWrites := dE.1 }
    match eff.waitErr with
    | some (GoCmdErr.exit stderrBytes) =>
      { base with
          msg := "Error running '" ++ line ++ "', stderr = " ++ stderrBytes ++
            ", rc = " ++ toString rc }
    | some (GoCmdErr.other m) =>
      { base with
          msg := "Error running '" ++ line ++ "', " ++ m ++ ", rc = " ++ toString rc }
    | none =>
      match dS.2 with
      | some m =>
        { base with
            msg := "Error [read stdout] running '" ++ line ++ "', " ++ m ++
              ", rc = " ++ toString rc }
      | none =>
        match dE.2 with
        | some m =>
          { base with
              msg := "Error [read stderr] running '" ++ line ++ "', " ++ m ++
                ", rc = " ++ toString rc }
        | none => base

/-! Concrete fixtures used by counterexamples and witnesses. -/

/-- A host environment: linux/amd64 host, resolved directories, no
force-rebuild. -/
def exampleGlobals : Globals :=
  { explicitAll := 0, verbose := 0, runstamp := "stamp"
    defaultEnv := ["GOOS=darwin", "PATH=/bin"]
    goos := "linux", goarch := "amd64"
    wd := "wd", testBinDir := "testbin", benchDir := "bench" }

/-- The spec's scenario configuration `{Name:"baseline"}`. -/
def exampleConfig : Configuration :=
  { name := "baseline", root := "", buildFlags := [], afterBuild := []
    gcFlags := "", gcEnv := [], runFlags := [], runEnv := [], runWrapper := []
    disabled := false, buildStats := [], rootCopy := "" }

/-- The spec's scenario benchmark `{Name:"fib", Repo:"example/fib"}`. -/
def exampleBench : Benchmark :=
  { name := "fib", repo := "example/fib", buildDir := "fib", buildFlags := []
    gcEnv := [], notSandboxed := false, disabled := false }

/-- A successful build taking 1.2s real / 1.0s user / 0.1s sys. -/
def successEffects : CompileEffects :=
  { cleanMsg := "", output := "", err := none
    realNs := 1200000000, userNs := 1000000000, sysNs := 100000000
    openOk := true, afterCmds := [] }

/-- A failed build (the compiler exited nonzero). -/
def failEffects : CompileEffects :=
  { cleanMsg := "", output := "bad", err := some (GoCmdErr.exit (""))
    realNs := 0, userNs := 0, sysNs := 0
    openOk := true, afterCmds := [] }

/-- Globals with force-rebuild (`-a=1`) active. -/
def forceGlobals : Globals :=
  { exampleGlobals with explicitAll := 1 }

/-- A configuration with one build flag and a compiler-flags string. -/
def flagConfig : Configuration :=
  { exampleConfig with buildFlags := ["-q"], gcFlags := "N" }

/-- A benchmark with one build flag. -/
def flagBench : Benchmark :=
  { exampleBench with buildFlags := ["-p"] }

/-- An already-disabled benchmark. -/
def disabledBench : Benchmark :=
  { exampleBench with disabled := true }

/-- A configuration whose GcEnv targets a different architecture than the
host. -/
def armConfig : Configuration :=
  { exampleConfig with gcEnv := ["GOARCH=arm64"] }

/-- A run whose stdout pipe could not be attached. -/
def launchFailEffects : RunEffects :=
  { stdoutPipeErr := some ("broken pipe"), stderrPipeErr := none
    startErr := none, stdoutReads := [], stderrReads := []
    waitErr := none, exitCode := 0 }

/-- A fully successful run: both pipes attach, the process starts, both
streams end cleanly, and the process exits 0. -/
def goodRunEffects : RunEffects :=
  { stdoutPipeErr := none, stderrPipeErr := none, startErr := none
    stdoutReads := [("hi\n", ReadRes.ok), ("", ReadRes.eof)]
    stderrReads := [("", ReadRes.eof)]
    waitErr := none, exitCode := 0 }

/-! Helper lemmas. -/

/-- A string append is non-empty when its left part is. -/
theorem ne_empty_append_left (a b : String) (h : a ≠ "") : a ++ b ≠ "" := by
  intro hc
  have hd := congrArg String.data hc
  rw [String.data_append] at hd
  exact h (String.ext (List.append_eq_nil.mp hd).1)

/-- `takeWhile` passes over a block that satisfies the test. -/
theorem takeWhile_append_all (p : Char → Bool) (l₁ l₂ : List Char)
    (h : ∀ c ∈ l₁, p c = true) :
    (l₁ ++ l₂).takeWhile p = l₁ ++ l₂.takeWhile p := by
  induction l₁ with
  | nil => simp
  | cons a t ih =>
    have ha := h a (List.mem_cons_self a t)
    simp [List.takeWhile_cons, ha,
      ih (fun c hc => h c (List.mem_cons_of_mem a hc))]

/-- `dropWhile` drops a block that satisfies the test. -/
theorem dropWhile_append_all (p : Char → Bool) (l₁ l₂ : List Char)
    (h : ∀ c ∈ l₁, p c = true) :
    (l₁ ++ l₂).dropWhile p = l₂.dropWhile p := by
  induction l₁ with
  | nil => simp
  | cons a t ih =>
    have ha := h a (List.mem_cons_self a t)
    simp [List.dropWhile_cons, ha,
      ih (fun c hc => h c (List.mem_cons_of_mem a hc))]

/-- Rebuilding a string from its characters is the identity. -/
theorem mk_data_eq (s : String) : String.mk s.data = s := by cases s; rfl

/-- The characters of a `key=value` entry. -/
theorem entry_data (k v : String) :
    (k ++ "=" ++ v).data = k.data ++ ('=' :: v.data) := by
  rw [String.data_append, String.data_append]
  simp

/-- Every character of an equals-free key passes the split test. -/
theorem notEq_of_mem (k : String) (hk : '=' ∉ k.data) :
    ∀ c ∈ k.data, isNotEqSign c = true := by
  intro c hc
  simp only [isNotEqSign, decide_eq_true_eq]
  intro he
  exact hk (he ▸ hc)

/-- The key of a well-formed `key=value` entry. -/
theorem keyOf_entry (k v : String) (hk : '=' ∉ k.data) :
    keyOf (k ++ "=" ++ v) = k := by
  unfold keyOf
  rw [entry_data, takeWhile_append_all _ _ _ (notEq_of_mem k hk)]
  have h2 : List.takeWhile isNotEqSign ('=' :: v.data) = [] := by
    simp [List.takeWhile_cons, isNotEqSign]
  rw [h2, List.append_nil, mk_data_eq]

/-- The value of a well-formed `key=value` entry. -/
theorem valOf_entry (k v : String) (hk : '=' ∉ k.data) :
    valOf (k ++ "=" ++ v) = v := by
  unfold valOf
  rw [entry_data, dropWhile_append_all _ _ _ (notEq_of_mem k hk)]
  have h2 : List.dropWhile isNotEqSign ('=' :: v.data) = '=' :: v.data := by
    simp [List.dropWhile_cons, isNotEqSign]
  rw [h2]

/-- `find?` over a map that replaced every hit returns the replacement. -/
theorem find?_map_replace (p : String → Bool) (x : String) (l : List String)
    (hx : p x = true) (hl : l.any p = true) :
    (l.map (fun e => if p e then x else e)).find? p = some x := by
  induction l with
  | nil => simp at hl
  | cons e t ih =>
    by_cases hpe : p e = true
    · simp [List.find?_cons, hpe, hx]
    · have hpe' : p e = false := by simpa using hpe
      have ht : t.any p = true := by simpa [List.any_cons, hpe'] using hl
      simp [List.find?_cons, hpe', ih ht]

/-- `find?` over a miss-free list extended by a hit returns the hit. -/
theorem find?_append_new (p : String → Bool) (x : String) (l : List String)
    (hx : p x = true) (hl : l.any p = false) :
    (l ++ [x]).find? p = some x := by
  induction l with
  | nil => simp [List.find?_cons, hx]
  | cons e t ih =>
    have hpe : p e = false := by
      by_contra hc
      simp [List.any_cons, eq_true_of_ne_false hc] at hl
    have ht : t.any p = false := by simpa [List.any_cons, hpe] using hl
    simp [List.find?_cons, hpe, ih ht]

/-- In the modelled environment helpers, the layer that binds a key last
wins: after `replaceEnv env k v`, looking up `k` yields `v` regardless of
any earlier binding of `k` in `env`. -/
theorem getenv_replaceEnv_self (env : List String) (k v : String)
    (hk : '=' ∉ k.data) :
    getenv (replaceEnv env k v) k = v := by
  unfold getenv replaceEnv
  have hpx : (keyOf (k ++ "=" ++ v) == k) = true := by
    rw [keyOf_entry k v hk]
    simp
  by_cases h : env.any (fun e => keyOf e == k) = true
  · rw [if_pos h, find?_map_replace (fun e => keyOf e == k) (k ++ "=" ++ v) env hpx h]
    exact valOf_entry k v hk
  · have h' : env.any (fun e => keyOf e == k) = false := by simpa using h
    rw [if_neg (by simp [h']),
      find?_append_new (fun e => keyOf e == k) (k ++ "=" ++ v) env hpx h']
    exact valOf_entry k v hk

/-- The stepwise appends of `compileArgs` flattened into one
concatenation, exposing where `-a` sits: after the benchmark flags and
before the configuration flags. -/
theorem compileArgs_flat (g : Globals) (c : Configuration) (b : Benchmark) :
    compileArgs g c b =
      [goCommandCopy c, "test", "-vet=off", "-c", "-o",
          pathJoin3 g.wd g.testBinDir (benchName c b)] ++
        b.buildFlags ++ (if g.explicitAll = 1 then ["-a"] else []) ++
        c.buildFlags ++
        (if c.gcFlags ≠ "" then ["-gcflags=" ++ c.gcFlags] else []) ++
        [b.repo] := by
  simp only [compileArgs]
  split <;> split <;> simp

/-! The claims. -/

/-- C1: for every `compileOne` invocation in which the compiler command
fails, zero `BenchStat` entries are appended to the configuration's
statistics, the benchmark's disabled flag becomes true, a non-empty
diagnostic string is returned, and the post-build measurement step is not
invoked in that call; moreover (last conjunct) the core never resets a
disabled benchmark: any invocation on an already-disabled benchmark
leaves its flag true. -/
theorem c1_build_failure_effects (g : Globals) (c : Configuration)
    (b : Benchmark) (count : Int) (eff : CompileEffects) (e : GoCmdErr)
    (b₂ : Benchmark) (eff₂ : CompileEffects)
    (herr : eff.err = some e) (hb₂ : b₂.disabled = true) :
    (compileOne g c b count eff).config.buildStats = c.buildStats ∧
    (compileOne g c b count eff).bench.disabled = true ∧
    (∃ s, (compileOne g c b count eff).ret = some s ∧ s ≠ "") ∧
    (compileOne g c b count eff).ranOther = false ∧
    (compileOne g c b count eff).otherWrites = [] ∧
    (compileOne g c b₂ count eff₂).bench.disabled = true := by
  have hmono : (compileOne g c b₂ count eff₂).bench.disabled = true := by
    obtain ⟨cm2, out2, err2, r2, u2, sy2, ok2, ac2⟩ := eff₂
    cases err2 <;> cases ok2 <;> simp [compileOne, hb₂]
  obtain ⟨cm, out, err, r, u, sy, ok, ac⟩ := eff
  simp only at herr
  subst herr
  cases e with
  | exit st =>
    refine ⟨rfl, rfl, ⟨_, rfl, ?_⟩, rfl, rfl, hmono⟩
    repeat' apply ne_empty_append_left
    decide
  | other m =>
    refine ⟨rfl, rfl, ⟨_, rfl, ?_⟩, rfl, rfl, hmono⟩
    repeat' apply ne_empty_append_left
    decide

/-- C1 witness: a concrete failed build appends no statistic, disables the
benchmark, returns a non-empty diagnostic, skips the measurement step,
and a concrete invocation on an already-disabled benchmark leaves it
disabled. -/
theorem c1_build_failure_effects_witness :
    (compileOne exampleGlobals exampleConfig exampleBench 0 failEffects).config.buildStats =
      exampleConfig.buildStats ∧
    (compileOne exampleGlobals exampleConfig exampleBench 0 failEffects).bench.disabled = true ∧
    (∃ s, (compileOne exampleGlobals exampleConfig exampleBench 0 failEffects).ret = some s ∧
      s ≠ "") ∧
    (compileOne exampleGlobals exampleConfig exampleBench 0 failEffects).ranOther = false ∧
    (compileOne exampleGlobals exampleConfig exampleBench 0 failEffects).otherWrites = [] ∧
    (compileOne exampleGlobals exampleConfig disabledBench 0 successEffects).bench.disabled = true :=
  c1_build_failure_effects exampleGlobals exampleConfig exampleBench 0 failEffects
    (GoCmdErr.exit ("")) disabledBench successEffects rfl rfl

/-- C2: for every `compileOne` invocation in which the compiler command
succeeds (and the build log reopens, the case in which the process
survives), exactly one `BenchStat` carrying the measured real, user and
system durations is appended to the configuration's statistics, exactly
one record is appended to the build log, a benchmark that was enabled
stays enabled, and the empty string is returned. -/
theorem c2_build_success_effects (g : Globals) (c : Configuration)
    (b : Benchmark) (count : Int) (eff : CompileEffects)
    (herr : eff.err = none) (hopen : eff.openOk = true)
    (hdis : b.disabled = false) :
    (compileOne g c b count eff).config.buildStats =
      c.buildStats ++
        [{ name := b.name, realTime := eff.realNs, userTime := eff.userNs,
           sysTime := eff.sysNs }] ∧
    (compileOne g c b count eff).logWrites =
      [(if getenv c.gcEnv ("GOARCH") ≠ g.goarch ∧ getenv c.gcEnv ("GOARCH") ≠ "" then
          "goarch: " ++ g.goarch ++ "-" ++ getenv c.gcEnv ("GOARCH") ++ "\n"
        else "") ++
        summaryLine b.name eff.realNs eff.userNs eff.sysNs] ∧
    (compileOne g c b count eff).bench.disabled = false ∧
    (compileOne g c b count eff).ret = some "" := by
  obtain ⟨cm, out, err, r, u, sy, ok, ac⟩ := eff
  simp only at herr hopen
  subst herr
  subst hopen
  exact ⟨rfl, rfl, hdis ▸ rfl, rfl⟩

/-- C2 witness: the spec's scenario build appends its one statistic and
one log record, keeps the benchmark enabled, and returns the empty
string. -/
theorem c2_build_success_effects_witness :
    (compileOne exampleGlobals exampleConfig exampleBench 1 successEffects).config.buildStats =
      exampleConfig.buildStats ++
        [{ name := exampleBench.name, realTime := successEffects.realNs,
           userTime := successEffects.userNs, sysTime := successEffects.sysNs }] ∧
    (compileOne exampleGlobals exampleConfig exampleBench 1 successEffects).logWrites =
      [(if getenv exampleConfig.gcEnv ("GOARCH") ≠ exampleGlobals.goarch ∧
            getenv exampleConfig.gcEnv ("GOARCH") ≠ "" then
          "goarch: " ++ exampleGlobals.goarch ++ "-" ++
            getenv exampleConfig.gcEnv ("GOARCH") ++ "\n"
        else "") ++
        summaryLine exampleBench.name successEffects.realNs successEffects.userNs
          successEffects.sysNs] ∧
    (compileOne exampleGlobals exampleConfig exampleBench 1 successEffects).bench.disabled =
      false ∧
    (compileOne exampleGlobals exampleConfig exampleBench 1 successEffects).ret = some "" :=
  c2_build_success_effects exampleGlobals exampleConfig exampleBench 1 successEffects
    rfl rfl rfl

/-- C3 counterexample: the claim states the line appended for the "fib"
scenario is `Benchmark Fib 1 1200000000 ...` with a space after
`Benchmark`; the code's format string `Benchmark%s 1 ...` splices the
title-cased name directly after `Benchmark`, producing
`BenchmarkFib 1 ...`, which differs from the claimed line (with or
without its terminating newline). -/
theorem c3_log_line_counterexample :
    (compileOne exampleGlobals exampleConfig exampleBench 1 successEffects).logWrites =
      ["BenchmarkFib 1 1200000000 build-real-ns/op 1000000000 build-user-ns/op 100000000 build-sys-ns/op\n"] ∧
    ("BenchmarkFib 1 1200000000 build-real-ns/op 1000000000 build-user-ns/op 100000000 build-sys-ns/op\n" : String) ≠
      "Benchmark Fib 1 1200000000 build-real-ns/op 1000000000 build-user-ns/op 100000000 build-sys-ns/op" ∧
    ("BenchmarkFib 1 1200000000 build-real-ns/op 1000000000 build-user-ns/op 100000000 build-sys-ns/op\n" : String) ≠
      "Benchmark Fib 1 1200000000 build-real-ns/op 1000000000 build-user-ns/op 100000000 build-sys-ns/op\n" := by
  refine ⟨rfl, by decide, by decide⟩

/-- C3 amended: for a benchmark named "fib" whose build exits 0 with 1.2s
real, 1.0s user and 0.1s sys time, the record appended to the build log
is exactly `BenchmarkFib 1 1200000000 build-real-ns/op 1000000000
build-user-ns/op 100000000 build-sys-ns/op` (no space between
`Benchmark` and the capitalized name), and one `BenchStat` with those
three durations is recorded. -/
theorem c3_log_line_amended :
    (compileOne exampleGlobals exampleConfig exampleBench 1 successEffects).logWrites =
      ["BenchmarkFib 1 1200000000 build-real-ns/op 1000000000 build-user-ns/op 100000000 build-sys-ns/op\n"] ∧
    (compileOne exampleGlobals exampleConfig exampleBench 1 successEffects).config.buildStats =
      [{ name := "fib", realTime := 1200000000, userTime := 1000000000,
         sysTime := 100000000 }] :=
  ⟨rfl, rfl⟩

/-- C4 counterexample: the claim states that on a read error the drainer
writes nothing to the log sink for the partially read chunk; but
`ReadBytes` hands back the partial chunk together with the error, and the
loop writes any non-empty chunk before looking at the error, so a read
error after the partial chunk "abc" writes "abc" (a non-empty write
list) and then signals the error. -/
theorem c4_drainer_counterexample :
    drain [(("abc"), ReadRes.fail ("boom"))] = ([("abc")], some ("boom")) ∧
    ([("abc")] : List String) ≠ [] := by
  refine ⟨rfl, by decide⟩

/-- C4 amended: on end-of-stream the drainer signals completion with no
error (after writing a non-empty final chunk, if any); on a read error
whose partial chunk is non-empty the drainer first writes that chunk to
the log sink and then signals completion carrying the error, and a read
error with an empty partial chunk is treated like end-of-stream
(completion with no error, nothing written). -/
theorem c4_drainer_amended (bs m : String) (rest : List (String × ReadRes)) :
    drain ((bs, ReadRes.eof) :: rest) =
      ((if bs.length > 0 then [bs] else []), none) ∧
    drain ((bs, ReadRes.fail m) :: rest) =
      (if bs.length = 0 then ([], none) else ([bs], some m)) := by
  constructor
  · simp [drain]
  · by_cases h : bs.length = 0
    · simp [drain, h]
    · have hgt : bs.length > 0 := Nat.pos_of_ne_zero h
      simp [drain, h, hgt]

/-- C5: when both pipes attach and the process starts, `runBinary` does
not return until it has passed, in order, the stdout drainer's completion
signal, then the stderr drainer's, and only afterwards the wait for the
process exit status. -/
theorem c5_join_order (line : String) (eff : RunEffects)
    (h1 : eff.stdoutPipeErr = none) (h2 : eff.stderrPipeErr = none)
    (h3 : eff.startErr = none) :
    (runBinary line eff).events =
      [RunEvent.drainStdoutDone, RunEvent.drainStderrDone, RunEvent.processWaited] := by
  obtain ⟨a, b, c, sr, er, w, x⟩ := eff
  simp only at h1 h2 h3
  subst h1
  subst h2
  subst h3
  cases w with
  | none =>
    simp only [runBinary]
    rcases hs : (drain sr).2 with _ | m1
    · rcases he : (drain er).2 with _ | m2 <;> simp [hs, he]
    · simp [hs]
  | some ge => cases ge <;> rfl

/-- C5 witness: a concrete successful run passes the three join points in
the source's order. -/
theorem c5_join_order_witness :
    (runBinary ("cmd") goodRunEffects).events =
      [RunEvent.drainStdoutDone, RunEvent.drainStderrDone, RunEvent.processWaited] :=
  c5_join_order ("cmd") goodRunEffects rfl rfl rfl

/-- C6 counterexample: the claim puts `-a` after the configuration's
build flags; the code appends `-a` between the benchmark's flags and the
configuration's flags, so with force-rebuild active, benchmark flag `-p`
and configuration flag `-q`, the built vector has `... -p -a -q ...` and
differs from the claimed vector. -/
theorem c6_args_counterexample :
    (compileOne forceGlobals flagConfig flagBench 1 successEffects).cmdArgs =
      ["go", "test", "-vet=off", "-c", "-o", "wd/testbin/fib_baseline",
        "-p", "-a", "-q", "-gcflags=N", "example/fib"] ∧
    (compileOne forceGlobals flagConfig flagBench 1 successEffects).cmdArgs ≠
      compileArgsClaimed forceGlobals flagConfig flagBench := by
  refine ⟨rfl, by decide⟩

/-- C6 amended: the compiler argument vector built by `compileOne` is
exactly the command path, `test -vet=off -c`, then
`-o <wd>/<testBinDir>/<benchmarkName>_<configurationName>`, then the
benchmark's build flags, then `-a` only when global force-rebuild mode is
active, then the configuration's build flags (still appended after the
benchmark's, so they can override), then `-gcflags=<GcFlags>` only when
the configuration's compiler-flags string is non-empty, and the
benchmark's module path as the final positional argument. -/
theorem c6_args_amended (g : Globals) (c : Configuration) (b : Benchmark)
    (count : Int) (eff : CompileEffects) :
    (compileOne g c b count eff).cmdArgs =
      [goCommandCopy c, "test", "-vet=off", "-c", "-o",
          pathJoin3 g.wd g.testBinDir (benchName c b)] ++
        b.buildFlags ++ (if g.explicitAll = 1 then ["-a"] else []) ++
        c.buildFlags ++
        (if c.gcFlags ≠ "" then ["-gcflags=" ++ c.gcFlags] else []) ++
        [b.repo] := by
  obtain ⟨cm, out, err, r, u, sy, ok, ac⟩ := eff
  cases err <;> cases ok <;> exact compileArgs_flat g c b

/-- C7: the environment handed to the compiler is computed in this layer
order — the default process environment, then GOOS replaced by linux
unless the benchmark's NotSandboxed flag is set, then GOROOT replaced by
the configuration's private root copy when it is non-empty, then the
benchmark-level GcEnv overrides, then the configuration-level GcEnv
overrides (first conjunct, comparing the source's computation against one
written from the claim's words) — and a later layer wins on a duplicated
key (second conjunct: after a layer binds a key, looking that key up
yields that layer's value whatever an earlier layer bound it to). -/
theorem c7_env_layering (g : Globals) (c : Configuration) (b : Benchmark)
    (count : Int) (eff : CompileEffects) (env : List String) (k v : String)
    (hk : '=' ∉ k.data) :
    (compileOne g c b count eff).cmdEnv = compileEnvClaimed g c b ∧
    getenv (replaceEnv env k v) k = v := by
  constructor
  · obtain ⟨cm, out, err, r, u, sy, ok, ac⟩ := eff
    cases err <;> cases ok <;> rfl
  · exact getenv_replaceEnv_self env k v hk

/-- C7 witness: the scenario build's environment layering agrees with the
claimed layering, and forcing GOOS over the base `GOOS=darwin` yields
linux. -/
theorem c7_env_layering_witness :
    (compileOne exampleGlobals exampleConfig exampleBench 0 successEffects).cmdEnv =
      compileEnvClaimed exampleGlobals exampleConfig exampleBench ∧
    getenv (replaceEnv [("GOOS=darwin")] ("GOOS") ("linux")) ("GOOS") = "linux" :=
  c7_env_layering exampleGlobals exampleConfig exampleBench 0 successEffects
    [("GOOS=darwin")] ("GOOS") ("linux") (by decide)

/-- C8: `compileOne` terminates the whole process exactly when the
compiler command succeeded and the build-log file could not be reopened
for appending, and then with the nonzero status 2; under every other
outcome (build failure, and any cache-clear or after-build failure, which
the effects record quantifies over) it does not exit.  The other embedded
core functions (`runBinary`, `runOtherBenchmarks`) contain no process
exit at all. -/
theorem c8_exit_only_on_log_reopen_failure (g : Globals) (c : Configuration)
    (b : Benchmark) (count : Int) (eff : CompileEffects) :
    (compileOne g c b count eff).exited =
      if eff.err = none ∧ eff.openOk = false then some 2 else none := by
  obtain ⟨cm, out, err, r, u, sy, ok, ac⟩ := eff
  cases err <;> cases ok <;> simp [compileOne]

/-- C9: when attaching the stdout pipe, attaching the stderr pipe, or
starting the child process fails, `runBinary` returns a non-empty
diagnostic string paired with exit code 0 — the same exit code a fully
successful run returns — so only the emptiness of the diagnostic string
distinguishes a launch failure from success. -/
theorem c9_launch_failure_exit_code (line : String) (eff eff₂ : RunEffects)
    (hfail : ¬(eff.stdoutPipeErr = none ∧ eff.stderrPipeErr = none ∧
      eff.startErr = none))
    (h1 : eff₂.stdoutPipeErr = none) (h2 : eff₂.stderrPipeErr = none)
    (h3 : eff₂.startErr = none) (h4 : eff₂.waitErr = none)
    (h5 : (drain eff₂.stdoutReads).2 = none)
    (h6 : (drain eff₂.stderrReads).2 = none)
    (h7 : eff₂.exitCode = 0) :
    (runBinary line eff).msg ≠ "" ∧ (runBinary line eff).rc = 0 ∧
    (runBinary line eff₂).msg = "" ∧
    (runBinary line eff₂).rc = (runBinary line eff).rc := by
  have hsucc : (runBinary line eff₂).msg = "" ∧ (runBinary line eff₂).rc = 0 := by
    obtain ⟨a, b, c, sr, er, w, x⟩ := eff₂
    simp only at h1 h2 h3 h4 h5 h6 h7
    subst h1
    subst h2
    subst h3
    subst h4
    subst h7
    simp [runBinary, h5, h6]
  obtain ⟨a, b, c, sr, er, w, x⟩ := eff
  cases a with
  | some e =>
    refine ⟨?_, rfl, hsucc.1, by rw [hsucc.2]; rfl⟩
    repeat' apply ne_empty_append_left
    decide
  | none =>
  cases b with
  | some e =>
    refine ⟨?_, rfl, hsucc.1, by rw [hsucc.2]; rfl⟩
    repeat' apply ne_empty_append_left
    decide
  | none =>
  cases c with
  | some e =>
    refine ⟨?_, rfl, hsucc.1, by rw [hsucc.2]; rfl⟩
    repeat' apply ne_empty_append_left
    decide
  | none => exact absurd ⟨rfl, rfl, rfl⟩ hfail

/-- C9 witness: a concrete stdout-pipe failure returns a non-empty
diagnostic with exit code 0, the same code a concrete fully successful
run returns alongside its empty diagnostic. -/
theorem c9_launch_failure_exit_code_witness :
    (runBinary ("cmd") launchFailEffects).msg ≠ "" ∧
    (runBinary ("cmd") launchFailEffects).rc = 0 ∧
    (runBinary ("cmd") goodRunEffects).msg = "" ∧
    (runBinary ("cmd") goodRunEffects).rc = (runBinary ("cmd") launchFailEffects).rc :=
  c9_launch_failure_exit_code ("cmd") launchFailEffects goodRunEffects
    (by decide) rfl rfl rfl rfl rfl rfl rfl

/-- C10: for every successful build that reopens its log, the write to
the build log carries the `goarch: <host>-<target>` marker before the
summary record exactly when the configuration's GcEnv binds GOARCH to a
non-empty value different from the host's GOARCH (the if-condition
below); the invocation's repetition counter and accumulated state are
universally quantified, so a configuration with a differing GOARCH gets
the marker on every successful build, not only the first, and one whose
GcEnv does not bind GOARCH never gets it. -/
theorem c10_goarch_marker (g : Globals) (c : Configuration) (b : Benchmark)
    (count : Int) (eff : CompileEffects)
    (herr : eff.err = none) (hopen : eff.openOk = true) :
    (compileOne g c b count eff).logWrites =
      [(if getenv c.gcEnv ("GOARCH") ≠ g.goarch ∧ getenv c.gcEnv ("GOARCH") ≠ "" then
          "goarch: " ++ g.goarch ++ "-" ++ getenv c.gcEnv ("GOARCH") ++ "\n"
        else "") ++
        summaryLine b.name eff.realNs eff.userNs eff.sysNs] := by
  obtain ⟨cm, out, err, r, u, sy, ok, ac⟩ := eff
  simp only at herr hopen
  subst herr
  subst hopen
  rfl

/-- C10 witness: a configuration binding `GOARCH=arm64` on an amd64 host
gets the marker on a successful build with repetition counter 5. -/
theorem c10_goarch_marker_witness :
    (compileOne exampleGlobals armConfig exampleBench 5 successEffects).logWrites =
      [(if getenv armConfig.gcEnv ("GOARCH") ≠ exampleGlobals.goarch ∧
            getenv armConfig.gcEnv ("GOARCH") ≠ "" then
          "goarch: " ++ exampleGlobals.goarch ++ "-" ++
            getenv armConfig.gcEnv ("GOARCH") ++ "\n"
        else "") ++
        summaryLine exampleBench.name successEffects.realNs successEffects.userNs
          successEffects.sysNs] :=
  c10_goarch_marker exampleGlobals armConfig exampleBench 5 successEffects rfl rfl
